import Mathlib

/-!
Shallow embedding of the `rs-result` Python module (`src/rs-result/__init__.py`),
which provides two container classes, `Option` and `Result`, with destructive-read
extraction.

Modelling conventions:
* A Python value of payload type `T` that may also be the `None` object is embedded
  as Lean `Option α`, with `none` standing for Python `None`.
* The `Option` class holds a single slot `_value`; it is embedded as the structure
  `POption` below (`P` for Python, since `Option` is taken by Lean's own type).
* Methods that mutate `self` are embedded in state-passing style: they return the
  method's result paired with the instance's state after the call.  Methods that can
  raise return `Except`; a raised `Exception(msg)` is the `.error` branch carrying
  the message (for `Result`, the payload handed to `Exception`), and a raise leaves
  the receiver unchanged because every `raise` in the source happens before any
  assignment to the receiver.
* The `Result` class stores either a `_Ok` cell or a `_Err` cell in its `value`
  attribute, and extraction assigns `self.value = None`; this three-way state is the
  inductive `Cell` (`cleared` models the `None` assignment).
* The source's tag checks `isinstance(self.value, self._Ok[T])` and
  `isinstance(self.value, self._Err[E])` test an object against a *subscripted*
  generic.  In every CPython able to import this module (it needs 3.7+ for
  `from __future__ import annotations`) such a check raises
  `TypeError: Subscripted generics cannot be used with class and instance checks`
  unconditionally, whatever the tested object is.  So `is_ok()`/`is_err()` never
  return a boolean, and every method whose body evaluates them first — `ok`, `err`,
  `expect`, `iter` (on its first advance), `unwrap`, `unwrap_or`, `unwrap_or_else`,
  `unwrap_err` — raises that `TypeError` on every call and every state, before any
  read of the payload or any assignment to `self.value`.  The embedding models this
  as `PyErr.isinstanceTypeError`; the `raise Exception(...)` statements in those
  bodies are unreachable dead code.  Each `Result` method returns its Python
  outcome (`Except PyErr _`) paired with the receiver's state after the call,
  which for all of the above is the unchanged receiver.
* Only `unwrap_unchecked` and `unwrap_err_unchecked` skip the tag check: they call
  the cell directly (`self.value()`), which returns the stored payload from a `_Ok`
  or `_Err` cell and then clears the cell, but raises the `TypeError` of calling
  the `None` object (`PyErr.notCallableTypeError`) once the cell has been cleared.
-/

set_option autoImplicit false
set_option linter.unusedVariables false

namespace RsResult

/-- The `Option` class: a single internal slot `_value` holding either a value of
`T` or Python `None` (Lean `none`), which doubles as the absence marker. -/
structure POption (α : Type) where
  _value : Option α
  deriving Repr, DecidableEq

/-- `Some(value)`: `Option.__init__` stores the argument directly in the slot.  The
argument is an arbitrary Python value, so it may itself be the `None` marker. -/
def Some {α : Type} (value : Option α) : POption α := ⟨value⟩

/-- `Null()`: constructs the container with `None` in the slot. -/
def Null {α : Type} : POption α := ⟨none⟩

namespace POption

variable {α β : Type}

/-- `is_some()`: `self._value is not None`. -/
def is_some (o : POption α) : Bool := o._value.isSome

/-- `is_null()`: `self._value is None`. -/
def is_null (o : POption α) : Bool := o._value.isNone

/-- `unwrap()`: if present, read the slot, set it to `None` and return the value;
otherwise raise `Exception("Called unwrap on a null value")`. -/
def unwrap (o : POption α) : Except String (α × POption α) :=
  match o._value with
  | some v => Except.ok (v, ⟨none⟩)
  | none => Except.error "Called unwrap on a null value"

/-- `unwrap_or(default)`: if present, read the slot, set it to `None` and return the
value; otherwise return `default`, leaving the (already empty) slot as it is. -/
def unwrap_or (default : α) (o : POption α) : α × POption α :=
  match o._value with
  | some v => (v, ⟨none⟩)
  | none => (default, o)

/-- `unwrap_or_else(default)`: like `unwrap_or` with the default computed by the
zero-argument callable `default`. -/
def unwrap_or_else (default : Unit → α) (o : POption α) : α × POption α :=
  match o._value with
  | some v => (v, ⟨none⟩)
  | none => (default (), o)

/-- `unwrap_unchecked()`: read the slot without any check (so the result may be the
`None` marker itself) and set the slot to `None`. -/
def unwrap_unchecked (o : POption α) : Option α × POption α :=
  (o._value, ⟨none⟩)

/-- `map(func)`: if present, return `Some(func(self._value))`; otherwise return
`Null()`.  The source never assigns to `self._value` here, so the receiver is
returned unchanged in both branches. -/
def map (func : α → β) (o : POption α) : POption β × POption α :=
  match o._value with
  | some v => (⟨some (func v)⟩, o)
  | none => (⟨none⟩, o)

/-- `map_or(default, func)`: `func(self._value)` if present else `default`; the
receiver is never written to. -/
def map_or (default : β) (func : α → β) (o : POption α) : β × POption α :=
  match o._value with
  | some v => (func v, o)
  | none => (default, o)

/-- `map_or_else(default, func)`: `func(self._value)` if present else `default()`;
the receiver is never written to. -/
def map_or_else (default : Unit → β) (func : α → β) (o : POption α) : β × POption α :=
  match o._value with
  | some v => (func v, o)
  | none => (default (), o)

/-- `replace(value)`: store `value` in the slot and return `Some(old)` if the old
slot content was not `None`, else `Null()` — in both cases a container whose slot
holds exactly the old content. -/
def replace (value : Option α) (o : POption α) : POption α × POption α :=
  (⟨o._value⟩, ⟨value⟩)

/-- `take()`: `replace(None)`. -/
def take (o : POption α) : POption α × POption α :=
  replace none o

/-- `expect(msg)`: the source delegates to
`unwrap_or_else(lambda: _raise(Exception(msg)))`, so when present it extracts and
clears the slot, and when absent the thunk raises `Exception(msg)` with the
receiver untouched. -/
def expect (msg : String) (o : POption α) : Except String (α × POption α) :=
  match o._value with
  | some v => Except.ok (v, ⟨none⟩)
  | none => Except.error msg

/-- `iter()`: the generator yields `Some(self._value)` when the container is
present, and then unconditionally yields `Null()`.  The result is the list of
yielded containers; the receiver's slot is never written. -/
def iter (o : POption α) : List (POption α) :=
  match o._value with
  | some v => [⟨some v⟩, ⟨none⟩]
  | none => [⟨none⟩]

end POption

/-- The possible contents of a `Result`'s `value` attribute: a `_Ok` cell wrapping a
success value, a `_Err` cell wrapping an error value, or `None` after an extracting
operation ran `self.value = None` (constructor `cleared`). -/
inductive Cell (α ε : Type) where
  | _Ok (value : α)
  | _Err (error : ε)
  | cleared
  deriving Repr, DecidableEq

/-- A Python exception actually raised by a `Result` method.  `isinstanceTypeError`
is `TypeError: Subscripted generics cannot be used with class and instance checks`,
raised by the `isinstance(self.value, self._Ok[T])` / `self._Err[E]` checks on
every call; `notCallableTypeError` is the `TypeError` of calling the `None` object,
raised by `self.value()` once the cell has been cleared.  No `Result` method ever
reaches its `raise Exception(...)` statement, because each such statement sits
behind an `is_ok()`/`is_err()` call that raises first. -/
inductive PyErr where
  | isinstanceTypeError
  | notCallableTypeError
  deriving Repr, DecidableEq

/-- The `Result` class: a single attribute `value` holding a `_Ok` or `_Err` cell
(or `None` once consumed). -/
structure PResult (α ε : Type) where
  value : Cell α ε
  deriving Repr, DecidableEq

/-- `Ok(value)`: `Result(Result._Ok(value))`. -/
def Ok {α ε : Type} (value : α) : PResult α ε := ⟨Cell._Ok value⟩

/-- `Err(error)`: `Result(Result._Err(error))`. -/
def Err {α ε : Type} (error : ε) : PResult α ε := ⟨Cell._Err error⟩

namespace PResult

variable {α ε : Type}

/-- The state after an extracting operation assigned `self.value = None`. -/
def consumed : PResult α ε := ⟨Cell.cleared⟩

/-- `is_ok()`: `isinstance(self.value, self._Ok[T])`.  The subscripted-generic
isinstance raises `TypeError` on every call, whatever the cell holds, so the
method never returns a boolean and never touches the receiver. -/
def is_ok (r : PResult α ε) : Except PyErr Bool × PResult α ε :=
  (Except.error PyErr.isinstanceTypeError, r)

/-- `is_err()`: `isinstance(self.value, self._Err[E])` — raises `TypeError` on
every call, exactly like `is_ok()`. -/
def is_err (r : PResult α ε) : Except PyErr Bool × PResult α ε :=
  (Except.error PyErr.isinstanceTypeError, r)

/-- `ok()`: the body starts with `if self.is_ok():`, so every call raises the
isinstance `TypeError` before either `Some(self.value())` or `Null()` can be
built; the receiver is never written. -/
def ok (r : PResult α ε) : Except PyErr (POption α) × PResult α ε :=
  (Except.error PyErr.isinstanceTypeError, r)

/-- `err()`: starts with `if self.is_err():`, so every call raises the isinstance
`TypeError` and no `Option` is ever returned; the receiver is never written. -/
def err (r : PResult α ε) : Except PyErr (POption ε) × PResult α ε :=
  (Except.error PyErr.isinstanceTypeError, r)

/-- `expect(msg)`: starts with `if self.is_ok():`, so every call raises the
isinstance `TypeError`; neither the `return self.value()` (which would not clear
the cell anyway — the body has no `self.value = None`) nor the
`raise Exception(msg)` is reachable. -/
def expect (msg : String) (r : PResult α ε) : Except PyErr α × PResult α ε :=
  (Except.error PyErr.isinstanceTypeError, r)

/-- `iter()`: the generator body starts with `if self.is_ok():`, so the first
advance of the returned generator raises the isinstance `TypeError` before
yielding anything; the receiver is never written. -/
def iter (r : PResult α ε) : Except PyErr (List (POption α)) × PResult α ε :=
  (Except.error PyErr.isinstanceTypeError, r)

/-- `unwrap()`: starts with `if self.is_ok():`, so every call raises the
isinstance `TypeError`; the extraction (`self.value()`, `self.value = None`) and
the `raise Exception(self.value())` branch are unreachable. -/
def unwrap (r : PResult α ε) : Except PyErr α × PResult α ε :=
  (Except.error PyErr.isinstanceTypeError, r)

/-- `unwrap_or(default)`: starts with `if self.is_ok():`, so every call raises the
isinstance `TypeError`; neither the extraction nor `return default` is ever
reached. -/
def unwrap_or (default : α) (r : PResult α ε) : Except PyErr α × PResult α ε :=
  (Except.error PyErr.isinstanceTypeError, r)

/-- `unwrap_or_else(default)`: starts with `if self.is_ok():`, so every call
raises the isinstance `TypeError`; `default(self.value())` is never invoked. -/
def unwrap_or_else (default : ε → α) (r : PResult α ε) :
    Except PyErr α × PResult α ε :=
  (Except.error PyErr.isinstanceTypeError, r)

/-- `unwrap_unchecked()`: `value = self.value(); self.value = None; return value`.
No tag check is involved: calling the cell returns whatever payload it holds
(`Sum.inl` from a `_Ok` cell, `Sum.inr` from a `_Err` cell) and the cell is then
cleared; on an already-cleared cell, calling `None` raises `TypeError` before any
assignment, leaving the receiver unchanged. -/
def unwrap_unchecked (r : PResult α ε) : Except PyErr (α ⊕ ε) × PResult α ε :=
  match r.value with
  | Cell._Ok v => (Except.ok (Sum.inl v), consumed)
  | Cell._Err e => (Except.ok (Sum.inr e), consumed)
  | Cell.cleared => (Except.error PyErr.notCallableTypeError, r)

/-- `unwrap_err()`: starts with `if self.is_err():`, so every call raises the
isinstance `TypeError`; the extraction and the `raise Exception(self.value())`
branch are unreachable. -/
def unwrap_err (r : PResult α ε) : Except PyErr ε × PResult α ε :=
  (Except.error PyErr.isinstanceTypeError, r)

/-- `unwrap_err_unchecked()`: `error = self.value(); self.value = None;
return error` — same cell-call semantics as `unwrap_unchecked`, with no tag
check. -/
def unwrap_err_unchecked (r : PResult α ε) :
    Except PyErr (α ⊕ ε) × PResult α ε :=
  match r.value with
  | Cell._Ok v => (Except.ok (Sum.inl v), consumed)
  | Cell._Err e => (Except.ok (Sum.inr e), consumed)
  | Cell.cleared => (Except.error PyErr.notCallableTypeError, r)

end PResult

/-- One public method call on a `Result` instance, seen as a transition on the
instance's state: `Step r r'` holds when some method of the class, invoked on
state `r`, leaves the instance in state `r'` (each method's post-state is the
second component of its embedding, whether the call returned or raised). -/
inductive Step {α ε : Type} : PResult α ε → PResult α ε → Prop where
  | is_ok_call (r : PResult α ε) : Step r (PResult.is_ok r).2
  | is_err_call (r : PResult α ε) : Step r (PResult.is_err r).2
  | ok_call (r : PResult α ε) : Step r (PResult.ok r).2
  | err_call (r : PResult α ε) : Step r (PResult.err r).2
  | expect_call (msg : String) (r : PResult α ε) : Step r (PResult.expect msg r).2
  | iter_call (r : PResult α ε) : Step r (PResult.iter r).2
  | unwrap_call (r : PResult α ε) : Step r (PResult.unwrap r).2
  | unwrap_or_call (d : α) (r : PResult α ε) : Step r (PResult.unwrap_or d r).2
  | unwrap_or_else_call (f : ε → α) (r : PResult α ε) :
      Step r (PResult.unwrap_or_else f r).2
  | unwrap_unchecked_call (r : PResult α ε) :
      Step r (PResult.unwrap_unchecked r).2
  | unwrap_err_call (r : PResult α ε) : Step r (PResult.unwrap_err r).2
  | unwrap_err_unchecked_call (r : PResult α ε) :
      Step r (PResult.unwrap_err_unchecked r).2

/-- Every single method call either leaves the state unchanged or clears the cell:
no transition ever writes a new `_Ok` or `_Err` cell. -/
theorem Step.eq_or_consumed {α ε : Type} {r r' : PResult α ε} (h : Step r r') :
    r' = r ∨ r' = PResult.consumed := by
  obtain ⟨c⟩ := r
  cases h <;> cases c <;>
    simp [PResult.is_ok, PResult.is_err, PResult.ok, PResult.err, PResult.expect,
      PResult.iter, PResult.unwrap, PResult.unwrap_or, PResult.unwrap_or_else,
      PResult.unwrap_unchecked, PResult.unwrap_err, PResult.unwrap_err_unchecked,
      PResult.consumed]

/-- Along any sequence of method calls, the state is either still the initial one
or the consumed state. -/
theorem reach_eq_or_consumed {α ε : Type} {r0 r : PResult α ε}
    (h : Relation.ReflTransGen Step r0 r) : r = r0 ∨ r = PResult.consumed := by
  induction h with
  | refl => exact Or.inl rfl
  | tail _ hbc ih =>
      rcases Step.eq_or_consumed hbc with h1 | h1
      · rw [h1]; exact ih
      · exact Or.inr h1

/-! ## Claims -/

/-- Claim C1: for every value `x` distinct from the absence marker, on a container
constructed as `Some(x)` the first `unwrap()` returns `x` and leaves the instance
in the `Null` state, and a second `unwrap()` on that same instance fails with the
fixed InvalidState message `Exception("Called unwrap on a null value")`. -/
theorem C1_option_single_consumption {α : Type} (x : α) :
    POption.unwrap (Some (some x)) = Except.ok (x, Null) ∧
    POption.unwrap (Null : POption α) =
      Except.error "Called unwrap on a null value" :=
  ⟨rfl, rfl⟩

/-- Claim C2, counterexample: `Option.map` does not consume the receiver.  With
`o = Some(5)` and `f = (· + 1)`, `o.map(f)` returns `Some(6)` but leaves `o` still
holding `5`: `o.is_null()` is false and `o.is_some()` is true afterwards,
contradicting "leaving o absent afterwards". -/
theorem C2_map_does_not_consume_cex :
    (POption.map (fun v => v + 1) (Some (some (5 : Nat)))).1 = Some (some 6) ∧
    (POption.map (fun v => v + 1) (Some (some (5 : Nat)))).2 = Some (some 5) ∧
    POption.is_null (POption.map (fun v => v + 1) (Some (some (5 : Nat)))).2
      = false ∧
    POption.is_some (POption.map (fun v => v + 1) (Some (some (5 : Nat)))).2
      = true :=
  ⟨rfl, rfl, rfl, rfl⟩

/-- Claim C2 (amended): on a present container holding `v`, `map(f)` returns a new
present container wrapping `f(v)`; on an absent container it returns a new absent
container; and in every case the receiver is left unchanged — `map` does not
consume the receiver's value. -/
theorem C2_map_amended {α β : Type} (f : α → β) (v : α) :
    POption.map f (Some (some v)) = (Some (some (f v)), Some (some v)) ∧
    POption.map f (Null : POption α) = ((Null : POption β), Null) ∧
    ∀ o : POption α, (POption.map f o).2 = o := by
  refine ⟨rfl, rfl, fun o => ?_⟩
  obtain ⟨_ | w⟩ := o <;> rfl

/-- Claim C3: literal behavior of `Option.iter()` at the failing inputs.  On the
absent container it yields one element (a `Null` container), not zero; on
`Some(7)` it yields two elements — `Some(7)` followed by a spurious `Null` — not
one.  This contradicts the claim's 0/1-element contract. -/
theorem C3_iter_literal_behavior :
    POption.iter (Null : POption Nat) = [Null] ∧
    (POption.iter (Null : POption Nat)).length = 1 ∧
    POption.iter (Some (some (7 : Nat))) = [Some (some 7), Null] ∧
    (POption.iter (Some (some (7 : Nat)))).length = 2 :=
  ⟨rfl, rfl, rfl, rfl⟩

/-- Claim C4, counterexample: on a container built by `Ok(5)`, `is_ok()` does not
report true — the very first call (the empty sequence of prior operations) raises
the subscripted-generic isinstance `TypeError`; and after the one successful
extraction available (`unwrap_unchecked`) it still reports nothing. -/
theorem C4_is_ok_never_reports_cex :
    (PResult.is_ok (Ok 5 : PResult Nat String)).1 =
      Except.error PyErr.isinstanceTypeError ∧
    (PResult.is_ok (Ok 5 : PResult Nat String)).1 ≠ Except.ok true ∧
    PResult.unwrap_unchecked (Ok 5 : PResult Nat String) =
      (Except.ok (Sum.inl 5), PResult.consumed) ∧
    (PResult.is_ok (PResult.consumed : PResult Nat String)).1 ≠ Except.ok true :=
  ⟨rfl, by simp [PResult.is_ok], rfl, by simp [PResult.is_ok]⟩

/-- Claim C4 (amended): the tag cell is fixed at construction and never flips —
after any sequence of operations, a container built by `Ok(v)` is either still
exactly `Ok(v)` or consumed (cell cleared by an unchecked extraction), and
symmetrically for `Err(e)`; no operation ever installs the other tag.  However
`is_ok()` and `is_err()` never report the tag: on every reachable state each call
raises the subscripted-generic isinstance `TypeError` instead of returning a
boolean. -/
theorem C4_tag_never_flips {α ε : Type} (v : α) (e : ε) (r s : PResult α ε)
    (hr : Relation.ReflTransGen Step (Ok v) r)
    (hs : Relation.ReflTransGen Step (Err e) s) :
    ((r = Ok v ∨ r = PResult.consumed) ∧
      (PResult.is_ok r).1 = Except.error PyErr.isinstanceTypeError ∧
      (PResult.is_err r).1 = Except.error PyErr.isinstanceTypeError) ∧
    ((s = Err e ∨ s = PResult.consumed) ∧
      (PResult.is_ok s).1 = Except.error PyErr.isinstanceTypeError ∧
      (PResult.is_err s).1 = Except.error PyErr.isinstanceTypeError) :=
  ⟨⟨reach_eq_or_consumed hr, rfl, rfl⟩, ⟨reach_eq_or_consumed hs, rfl, rfl⟩⟩

/-- Witness for `C4_tag_never_flips` at `v = 5`, `e = "e"`, with `r` the consumed
state reached from `Ok 5` by one successful `unwrap_unchecked()` call and
`s = Err "e"` itself. -/
theorem C4_tag_never_flips_witness :
    (((PResult.consumed : PResult Nat String) = Ok 5 ∨
        (PResult.consumed : PResult Nat String) = PResult.consumed) ∧
      (PResult.is_ok (PResult.consumed : PResult Nat String)).1 =
        Except.error PyErr.isinstanceTypeError ∧
      (PResult.is_err (PResult.consumed : PResult Nat String)).1 =
        Except.error PyErr.isinstanceTypeError) ∧
    (((Err "e" : PResult Nat String) = Err "e" ∨
        (Err "e" : PResult Nat String) = PResult.consumed) ∧
      (PResult.is_ok (Err "e" : PResult Nat String)).1 =
        Except.error PyErr.isinstanceTypeError ∧
      (PResult.is_err (Err "e" : PResult Nat String)).1 =
        Except.error PyErr.isinstanceTypeError) :=
  C4_tag_never_flips 5 "e" PResult.consumed (Err "e")
    (Relation.ReflTransGen.single (Step.unwrap_unchecked_call (Ok 5)))
    Relation.ReflTransGen.refl

/-- Claim C5: literal behavior at the failing inputs.  The checked extractors
never retrieve a payload at all — `Ok(5).expect("m")`, `Ok(5).unwrap()`,
`Ok(5).unwrap_or(0)`, `Ok(5).unwrap_or_else(f)` and `Err("e").unwrap_err()` each
raise the isinstance `TypeError` with the cell left intact — so the claimed
retrieve-then-clear discipline never executes for them; only the unchecked
extractors retrieve the payload and clear the cell as the claim describes. -/
theorem C5_extractors_raise_before_clearing :
    PResult.expect "m" (Ok 5 : PResult Nat String) =
      (Except.error PyErr.isinstanceTypeError, Ok 5) ∧
    PResult.unwrap (Ok 5 : PResult Nat String) =
      (Except.error PyErr.isinstanceTypeError, Ok 5) ∧
    PResult.unwrap_or 0 (Ok 5 : PResult Nat String) =
      (Except.error PyErr.isinstanceTypeError, Ok 5) ∧
    PResult.unwrap_or_else (fun _ => 0) (Ok 5 : PResult Nat String) =
      (Except.error PyErr.isinstanceTypeError, Ok 5) ∧
    PResult.unwrap_err (Err "e" : PResult Nat String) =
      (Except.error PyErr.isinstanceTypeError, Err "e") ∧
    PResult.unwrap_unchecked (Ok 5 : PResult Nat String) =
      (Except.ok (Sum.inl 5), PResult.consumed) ∧
    PResult.unwrap_err_unchecked (Err "e" : PResult Nat String) =
      (Except.ok (Sum.inr "e"), PResult.consumed) :=
  ⟨rfl, rfl, rfl, rfl, rfl, rfl, rfl⟩

/-- Claim C6, counterexample: the checking and default-supplying operations of
`Result` fail on the initial state itself — on `Ok(5)`, `is_ok()`, `is_err()`,
`unwrap_or(0)` and `unwrap_or_else` with a total function each raise the
subscripted-generic isinstance `TypeError`, contradicting "never fail, for every
reachable state". -/
theorem C6_checking_ops_raise_cex :
    (PResult.is_ok (Ok 5 : PResult Nat String)).1 =
      Except.error PyErr.isinstanceTypeError ∧
    (PResult.is_err (Ok 5 : PResult Nat String)).1 =
      Except.error PyErr.isinstanceTypeError ∧
    (PResult.unwrap_or 0 (Ok 5 : PResult Nat String)).1 =
      Except.error PyErr.isinstanceTypeError ∧
    (PResult.unwrap_or_else (fun _ => 0) (Ok 5 : PResult Nat String)).1 =
      Except.error PyErr.isinstanceTypeError :=
  ⟨rfl, rfl, rfl, rfl⟩

/-- Claim C6 (amended): `Option`'s checking and default-supplying operations
(`is_some`, `is_null`, `unwrap_or`, `unwrap_or_else`, `map_or`, `map_or_else`)
never fail in any state and return the extracted value when present and the
supplied default otherwise; `Result`'s `is_ok`, `is_err`, `unwrap_or` and
`unwrap_or_else`, by contrast, raise the isinstance `TypeError` on every call and
every state, even with total caller-supplied functions. -/
theorem C6_no_fail_amended {α β ε : Type} (f : ε → α) (g : Unit → α) (d : α)
    (D : β) (k : α → β) (r : PResult α ε) (o : POption α) :
    (POption.unwrap_or d o).1 = o._value.getD d ∧
    (POption.unwrap_or_else g o).1 = o._value.getD (g ()) ∧
    (POption.map_or D k o).1 = (o._value.map k).getD D ∧
    (POption.map_or_else (fun _ => D) k o).1 = (o._value.map k).getD D ∧
    (PResult.is_ok r).1 = Except.error PyErr.isinstanceTypeError ∧
    (PResult.is_err r).1 = Except.error PyErr.isinstanceTypeError ∧
    (PResult.unwrap_or d r).1 = Except.error PyErr.isinstanceTypeError ∧
    (PResult.unwrap_or_else f r).1 = Except.error PyErr.isinstanceTypeError := by
  obtain ⟨_ | w⟩ := o <;> exact ⟨rfl, rfl, rfl, rfl, rfl, rfl, rfl, rfl⟩

/-- Claim C7: a container constructed as `Some(m)` where `m` is the absence
marker (`None`) is literally the same state as an absent container: `is_some()`
reports false and `is_null()` reports true on it. -/
theorem C7_some_marker_conflation {α : Type} :
    Some (none : Option α) = (Null : POption α) ∧
    POption.is_some (Some (none : Option α)) = false ∧
    POption.is_null (Some (none : Option α)) = true :=
  ⟨rfl, rfl, rfl⟩

/-- Claim C8: literal behavior at the failing inputs.  The conversions never
return an `Option` at all: `Ok(5).ok()`, `Ok(5).err()`, `Err("e").ok()` and
`Err("e").err()` each raise the subscripted-generic isinstance `TypeError` at
their opening `is_ok()`/`is_err()` guard, with the receiver unchanged — so
`Ok(5).ok().unwrap() == 5` and the other claimed identities never get to run. -/
theorem C8_conversions_raise :
    PResult.ok (Ok 5 : PResult Nat String) =
      (Except.error PyErr.isinstanceTypeError, Ok 5) ∧
    PResult.err (Ok 5 : PResult Nat String) =
      (Except.error PyErr.isinstanceTypeError, Ok 5) ∧
    PResult.ok (Err "e" : PResult Nat String) =
      (Except.error PyErr.isinstanceTypeError, Err "e") ∧
    PResult.err (Err "e" : PResult Nat String) =
      (Except.error PyErr.isinstanceTypeError, Err "e") :=
  ⟨rfl, rfl, rfl, rfl⟩

/-- Claim C9, counterexample: `unwrap_unchecked` on `Ok(5)` is a successful
consuming extraction (it returns the payload and clears the cell), but on the
resulting consumed instance `is_ok()` and `is_err()` do not return false — each
call raises the subscripted-generic isinstance `TypeError` instead. -/
theorem C9_is_ok_raises_after_extraction_cex :
    PResult.unwrap_unchecked (Ok 5 : PResult Nat String) =
      (Except.ok (Sum.inl 5), PResult.consumed) ∧
    (PResult.is_ok (PResult.consumed : PResult Nat String)).1 ≠
      Except.ok false ∧
    (PResult.is_err (PResult.consumed : PResult Nat String)).1 ≠
      Except.ok false :=
  ⟨rfl, by simp [PResult.is_ok], by simp [PResult.is_err]⟩

/-- Claim C9 (amended): the only consuming extractions that can succeed are
`unwrap_unchecked` and `unwrap_err_unchecked`; each leaves the instance in the
consumed state, and that instance indeed reports neither tag — but not by
returning false: `is_ok()` and `is_err()` raise the isinstance `TypeError`
there, as they do on every state. -/
theorem C9_consumed_reports_neither_tag {α ε : Type} (v : α) (e : ε) :
    PResult.unwrap_unchecked (Ok v : PResult α ε) =
      (Except.ok (Sum.inl v), PResult.consumed) ∧
    PResult.unwrap_unchecked (Err e : PResult α ε) =
      (Except.ok (Sum.inr e), PResult.consumed) ∧
    PResult.unwrap_err_unchecked (Ok v : PResult α ε) =
      (Except.ok (Sum.inl v), PResult.consumed) ∧
    PResult.unwrap_err_unchecked (Err e : PResult α ε) =
      (Except.ok (Sum.inr e), PResult.consumed) ∧
    (PResult.is_ok (PResult.consumed : PResult α ε)).1 =
      Except.error PyErr.isinstanceTypeError ∧
    (PResult.is_err (PResult.consumed : PResult α ε)).1 =
      Except.error PyErr.isinstanceTypeError :=
  ⟨rfl, rfl, rfl, rfl, rfl, rfl⟩

/-- Claim C10, counterexample: the first `ok()` call on `Ok(5)`'s container does
not yield a present Option holding 5 — it raises the subscripted-generic
isinstance `TypeError` and yields no Option at all. -/
theorem C10_ok_yields_no_option_cex :
    (PResult.ok (Ok 5 : PResult Nat String)).1 =
      Except.error PyErr.isinstanceTypeError ∧
    (PResult.ok (Ok 5 : PResult Nat String)).1 ≠ Except.ok (Some (some 5)) :=
  ⟨rfl, by simp [PResult.ok]⟩

/-- Claim C10 (amended): `ok()` and `err()` indeed never write to the receiver —
the state after any call equals the state before, so repeated calls on the same
instance behave identically — but no call returns an Option: every `ok()`/`err()`
invocation raises the isinstance `TypeError`, so two successive `ok()` calls on
`Ok(5)`'s container each raise rather than each yielding `Some(5)`. -/
theorem C10_ok_err_do_not_consume {α ε : Type} (v : α) (r : PResult α ε) :
    (PResult.ok r).2 = r ∧
    (PResult.err r).2 = r ∧
    PResult.ok ((PResult.ok r).2) = PResult.ok r ∧
    PResult.err ((PResult.err r).2) = PResult.err r ∧
    (PResult.ok (Ok v : PResult α ε)).1 =
      Except.error PyErr.isinstanceTypeError ∧
    (PResult.ok ((PResult.ok (Ok v : PResult α ε)).2)).1 =
      Except.error PyErr.isinstanceTypeError :=
  ⟨rfl, rfl, rfl, rfl, rfl, rfl⟩

end RsResult
